import Mathlib

/-
Shallow embedding of the MCCLI connection-lifecycle controller
(src/index.js, v1.1.1_rc1) and proofs about its documented behaviour.

Modelling conventions:
- JS strings are modelled as Lean strings; a string position or length
  counts abstract units (one Lean Char per unit).
- JS numbers that the program manipulates are integers or NaN; they are
  modelled by the JSNum type below (floating point is out of scope).
- The mineflayer bot handle is opaque; only its identity and the set of
  attached event listeners matter, so it is modelled by a numeric id.
- Asynchronous event delivery is modelled by an explicit list of events
  folded over the handler semantics, in arrival order.
- Code that can throw is modelled with Except; a try/catch in the source
  becomes a match that swallows the error branch.
- Chalk colour wrappers around interpolated values are dropped from the
  logged message text; the severity tag and the surrounding text are kept.
-/

namespace MCCLI

/-- Severity tags accepted by the logger in src/index.js. -/
inductive LogLevel
  | info
  | warn
  | error
  | success
  | chat
  | event
deriving DecidableEq, Repr

/-- One message handed to the central log function, with its severity. -/
structure LogEntry where
  level : LogLevel
  msg : String
deriving DecidableEq, Repr

/-- A JavaScript numeric value as used for ports: an integer or NaN. -/
inductive JSNum
  | int (n : Int)
  | nan
deriving DecidableEq, Repr

/-- String interpolation of a JSNum, as a JS template literal renders it. -/
def jsNumStr : JSNum → String
  | JSNum.int n => toString n
  | JSNum.nan => "NaN"

/-- An opaque mineflayer bot handle, identified by a numeric id. -/
structure Handle where
  id : Nat
deriving DecidableEq, Repr

/-- The mutable fields of the BotController class. -/
structure ControllerState where
  bot : Option Handle
  connected : Bool
  autoReconnect : Bool
  lastHost : Option String
  lastPort : Option JSNum
  lastVersion : Option String
deriving DecidableEq, Repr

/-- The constructor state of BotController: everything null or false. -/
def initialState : ControllerState :=
  { bot := none, connected := false, autoReconnect := false,
    lastHost := none, lastPort := none, lastVersion := none }

/-- The three-valued connection state the spec talks about, derived from
the two concrete fields: Connected when the connected flag is set,
Connecting when an attempt holds a handle without the flag, else
Disconnected. -/
inductive ConnState
  | Disconnected
  | Connecting
  | Connected
deriving DecidableEq, Repr

def stateOf (s : ControllerState) : ConnState :=
  if s.connected then ConnState.Connected
  else if s.bot.isSome then ConnState.Connecting
  else ConnState.Disconnected

/-- JS truthiness of an optional string: non-null and non-empty. -/
def truthyOpt : Option String → Bool
  | none => false
  | some s => if s = "" then false else true

/-- Whitespace in the sense of JS trim and the whitespace character class
(the ASCII members; the program only meets these). -/
def isJsWhitespace (c : Char) : Bool :=
  c = ' ' || c = '\t' || c = '\n' || c = '\r' || c = '\x0b' || c = '\x0c'

def jsTrimList (l : List Char) : List Char :=
  ((l.dropWhile isJsWhitespace).reverse.dropWhile isJsWhitespace).reverse

/-- JS String.prototype.trim. -/
def jsTrim (s : String) : String :=
  String.mk (jsTrimList s.toList)

/-- Split a character list at every occurrence of a separator character,
keeping empty pieces, as JS split with a one-character separator does. -/
def splitCharList (sep : Char) : List Char → List (List Char)
  | [] => [[]]
  | c :: rest =>
    let r := splitCharList sep rest
    if c = sep then [] :: r
    else
      match r with
      | t :: ts => (c :: t) :: ts
      | [] => [[c]]

/-- JS s.split(' '): every single space is a separator; runs of spaces
produce empty tokens; the empty string yields one empty token. -/
def jsSplit (s : String) : List String :=
  (splitCharList ' ' s.toList).map String.mk

/-- ASCII lowering of one character, the fragment of toLowerCase the
command names exercise. -/
def lowerChar (c : Char) : Char :=
  if 'A' ≤ c ∧ c ≤ 'Z' then Char.ofNat (c.toNat + 32) else c

/-- JS String.prototype.toLowerCase restricted to ASCII letters. -/
def lowerString (s : String) : String :=
  String.mk (s.toList.map lowerChar)

/-- Tokenization as the spec words it, for comparison with the code:
split the line on runs of whitespace, so that whitespace only separates
tokens and never produces empty ones. -/
def wsTokenizeAux : List Char → List Char → List (List Char)
  | [], acc => if acc.isEmpty then [] else [acc.reverse]
  | c :: rest, acc =>
    if isJsWhitespace c then
      if acc.isEmpty then wsTokenizeAux rest []
      else acc.reverse :: wsTokenizeAux rest []
    else wsTokenizeAux rest (c :: acc)

def wsTokenize (s : String) : List String :=
  (wsTokenizeAux s.toList []).map String.mk

/-- Collapse internal whitespace runs to single spaces after trimming,
as the message event handler does with its replace call. -/
def collapseWs (s : String) : String :=
  String.intercalate " " (wsTokenize s)

/-- Does the first list occur at the head of the second? -/
def startsWithL : List Char → List Char → Bool
  | [], _ => true
  | _ :: _, [] => false
  | a :: as, b :: bs => a = b && startsWithL as bs

/-- Does the first list occur contiguously anywhere in the second? -/
def subListL (needle : List Char) : List Char → Bool
  | [] => needle.isEmpty
  | c :: rest => startsWithL needle (c :: rest) || subListL needle rest

/-- JS String.prototype.includes. -/
def containsSub (hay needle : String) : Bool :=
  subListL needle.toList hay.toList

/-- Value of one character as a digit in the given radix, if it is one. -/
def digitVal? (radix : Nat) (c : Char) : Option Nat :=
  let v : Option Nat :=
    if '0' ≤ c ∧ c ≤ '9' then some (c.toNat - '0'.toNat)
    else if 'a' ≤ c ∧ c ≤ 'z' then some (c.toNat - 'a'.toNat + 10)
    else if 'A' ≤ c ∧ c ≤ 'Z' then some (c.toNat - 'A'.toNat + 10)
    else none
  match v with
  | some d => if d < radix then some d else none
  | none => none

/-- Accumulate the longest digit run at the head of the list; none when
no digit at all was found. -/
def takeDigits (radix : Nat) : List Char → Nat → Bool → Option Nat
  | [], acc, found => if found then some acc else none
  | c :: rest, acc, found =>
    match digitVal? radix c with
    | some d => takeDigits radix rest (acc * radix + d) true
    | none => if found then some acc else none

/-- JS parseInt with no radix argument: skip leading whitespace, read an
optional sign, honour a 0x hexadecimal marker, then take the longest
digit run; NaN when no digit was found. Arbitrary-precision integers
stand in for JS doubles; the inputs the program meets are small. -/
def jsParseInt (s : String) : JSNum :=
  let cs := s.toList.dropWhile isJsWhitespace
  let signed : Int × List Char :=
    match cs with
    | '-' :: r => (-1, r)
    | '+' :: r => (1, r)
    | _ => (1, cs)
  let based : Nat × List Char :=
    match signed.2 with
    | '0' :: 'x' :: r => (16, r)
    | '0' :: 'X' :: r => (16, r)
    | _ => (10, signed.2)
  match takeDigits based.1 based.2 0 false with
  | some n => JSNum.int (signed.1 * (n : Int))
  | none => JSNum.nan

/-- A reconnect attempt scheduled by tryReconnect: a setTimeout of the
given delay that will call connect with the remembered target. -/
structure ReconnectTask where
  delayMs : Nat
  host : String
  port : Option JSNum
  version : Option String
deriving DecidableEq, Repr

/-- BotController.tryReconnect: schedule exactly one delayed connect with
the remembered target when the flag is set and a truthy lastHost exists,
else do nothing. Returns the scheduled tasks and the logs it emits. -/
def tryReconnect (s : ControllerState) : List ReconnectTask × List LogEntry :=
  if s.autoReconnect && truthyOpt s.lastHost then
    ([{ delayMs := 3000, host := s.lastHost.getD "", port := s.lastPort,
        version := s.lastVersion }],
     [⟨LogLevel.info, "🔄 Attempting to reconnect..."⟩])
  else ([], [])

/-- BotController.setAutoReconnect: store the coerced flag and log it. -/
def setAutoReconnect (s : ControllerState) (flag : Bool) :
    ControllerState × List LogEntry :=
  ({ s with autoReconnect := flag },
   [⟨LogLevel.info, "🔁 Auto-reconnect is now " ++
      (if flag then "ENABLED" else "DISABLED")⟩])

/-- The synchronous prefix of BotController.connect, through the guards,
the recording of the last target, the info log, bot creation and the
attachment of the event handlers. The Bool tells whether the attempt
proceeded past the guards. -/
def connectStart (s : ControllerState) (host : String) (port : JSNum)
    (version : Option String) (newBot : Handle) :
    ControllerState × List LogEntry × Bool :=
  if s.connected then (s, [⟨LogLevel.error, "Bot already connected."⟩], false)
  else if host = "" then
    (s, [⟨LogLevel.warn, "Usage: join <ip> [port|version] [version]"⟩], false)
  else
    ({ s with lastHost := some host, lastPort := some port,
              lastVersion := version, bot := some newBot, connected := false },
     [⟨LogLevel.info, "🔌 Connecting to " ++ host ++ ":" ++ jsNumStr port ++ " " ++
        (match version with | some v => "(v" ++ v ++ ")" | none => "")⟩],
     true)

/-- The events mineflayer can deliver to the handlers connect installs.
The spawn position is carried as the text the success log renders. -/
inductive BotEvent
  | spawn (pos : String)
  | chat (user msg : String)
  | message (msg : String)
  | kicked (reason : String)
  | errorEv (msg : String)
  | endEv
deriving DecidableEq, Repr

/-- The observable state of one connect attempt: the controller fields,
whether the promise has resolved, whether the once-spawn handler already
fired, whether the handlers are still attached to the bot, and the logs
and reconnect tasks produced so far. -/
structure AttemptState where
  ctrl : ControllerState
  resolved : Bool
  spawnUsed : Bool
  attached : Bool
  logs : List LogEntry
  tasks : List ReconnectTask
deriving DecidableEq, Repr

/-- BotController.cleanup as seen from inside an attempt: when a bot is
held, its listeners are detached (so later events are not delivered),
then the flag is cleared and the handle released. -/
def attemptCleanup (st : AttemptState) : AttemptState :=
  { st with
    attached := if st.ctrl.bot.isSome then false else st.attached,
    ctrl := { st.ctrl with connected := false, bot := none } }

/-- tryReconnect as called from an event handler, appended to the
attempt log and task accumulators. -/
def attemptReconnect (st : AttemptState) : AttemptState :=
  { st with
    logs := st.logs ++ (tryReconnect st.ctrl).2,
    tasks := st.tasks ++ (tryReconnect st.ctrl).1 }

/-- Delivery of one bot event to the handlers installed by connect,
exactly as the source orders its statements. Once the listeners are
detached nothing is delivered any more. -/
def stepEvent (username : String) (st : AttemptState) (ev : BotEvent) :
    AttemptState :=
  if st.attached then
    match ev with
    | BotEvent.spawn pos =>
      if st.spawnUsed then st
      else
        { st with
          ctrl := { st.ctrl with connected := true },
          spawnUsed := true, resolved := true,
          logs := st.logs ++ [⟨LogLevel.success, "🎮 Spawned at " ++ pos⟩] }
    | BotEvent.chat user msg =>
      if user ≠ "" ∧ user ≠ username then
        { st with logs := st.logs ++ [⟨LogLevel.chat, user ++ ": " ++ msg⟩] }
      else st
    | BotEvent.message msg =>
      { st with logs := st.logs ++ [⟨LogLevel.event, "[srv msg] " ++ collapseWs msg⟩] }
    | BotEvent.kicked reason =>
      attemptReconnect (attemptCleanup
        { st with logs := st.logs ++ [⟨LogLevel.error, "⬅️ Kicked: " ++ reason⟩] })
    | BotEvent.errorEv m =>
      let st1 :=
        if st.ctrl.connected then st
        else { st with logs := st.logs ++ [⟨LogLevel.error, "❌ " ++ m⟩] }
      { attemptCleanup st1 with resolved := true }
    | BotEvent.endEv =>
      let st1 :=
        if st.ctrl.connected then
          { st with logs := st.logs ++ [⟨LogLevel.warn, "🔌 Disconnected."⟩] }
        else st
      attemptReconnect (attemptCleanup st1)
  else st

/-- A whole connect call: the synchronous prefix followed by the delivery
of a trace of bot events. When the guards fail fast no handlers exist
and the trace is irrelevant. The promise in the source only ever
resolves, never rejects, which is why the model has no rejection
channel. -/
def connectAttempt (s : ControllerState) (host : String) (port : JSNum)
    (version : Option String) (username : String) (newBot : Handle)
    (trace : List BotEvent) : AttemptState :=
  match connectStart s host port version newBot with
  | (c, logs, true) =>
    List.foldl (stepEvent username)
      { ctrl := c, resolved := false, spawnUsed := false, attached := true,
        logs := logs, tasks := [] } trace
  | (c, logs, false) =>
    { ctrl := c, resolved := false, spawnUsed := false, attached := false,
      logs := logs, tasks := [] }

/-- The condition under which the connect promise in the source actually
resolves: the first lifecycle event delivered is a spawn or an error;
chat and message events are transparent; a kicked or end event first
detaches the listeners, after which nothing can resolve. -/
def attemptResolves : List BotEvent → Bool
  | [] => false
  | BotEvent.spawn _ :: _ => true
  | BotEvent.errorEv _ :: _ => true
  | BotEvent.kicked _ :: _ => false
  | BotEvent.endEv :: _ => false
  | BotEvent.chat _ _ :: r => attemptResolves r
  | BotEvent.message _ :: r => attemptResolves r

/-- BotController.say: guard on connection and non-empty message, then
hand the first 256 units to bot.chat; a throwing chat is caught and
classified by its message. The third component is the value passed to
the transport, if any. -/
def sayOp (s : ControllerState) (message : String) (chatFault : Option String) :
    ControllerState × List LogEntry × Option String :=
  if s.connected = false ∨ s.bot = none then
    (s, [⟨LogLevel.warn, "Bot not connected."⟩], none)
  else if message = "" then
    (s, [⟨LogLevel.warn, "Usage: say <message>"⟩], none)
  else
    let tx := String.mk (message.toList.take 256)
    match chatFault with
    | none => (s, [], some tx)
    | some err =>
      (s, [if containsSub err "signature" then
             ⟨LogLevel.warn, "⚠️ Chat failed due to signature, ignored."⟩
           else ⟨LogLevel.error, "Chat failed: " ++ err⟩],
       some tx)

/-- Where a process-wide fault came from. -/
inductive FaultOrigin
  | unhandledRejection
  | uncaughtException
deriving DecidableEq, Repr

/-- The tag each of the two process-level handlers puts in front of the
fault message. -/
def originMsg : FaultOrigin → String
  | FaultOrigin.unhandledRejection => "Unhandled rejection: "
  | FaultOrigin.uncaughtException => "Uncaught exception: "

/-- The process-wide guard of src/index.js: both handlers only log the
fault. Registering them keeps the process alive (the final Bool), and
neither handler touches the controller or schedules anything. -/
def faultGuard (origin : FaultOrigin) (errMsg : String) (s : ControllerState) :
    ControllerState × List LogEntry × List ReconnectTask × Bool :=
  (s, [⟨LogLevel.error, originMsg origin ++ errMsg⟩], [], true)

/-- The world cleanup acts on: the controller plus, per handle id, the
fact that event listeners are still attached (the list of handle ids
holding listeners). -/
structure World where
  ctrl : ControllerState
  listeners : List Nat
deriving DecidableEq, Repr

/-- bot.removeAllListeners, which may itself fault. -/
def removeAllListenersE (fault : Bool) (ls : List Nat) (h : Nat) :
    Except String (List Nat) :=
  if fault then Except.error "listener detach fault"
  else Except.ok (ls.filter (fun i => i ≠ h))

def exOk {α β : Type} : Except α β → Bool
  | Except.ok _ => true
  | Except.error _ => false

/-- BotController.cleanup over a World: when a bot is held, try to detach
its listeners and swallow any fault, then clear the flag and the handle.
The Except return mirrors the possibility of an uncaught throw; the
catch block makes the ok branch the only one. -/
def cleanupWE (fault : Bool) (w : World) : Except String World :=
  let ls : List Nat :=
    match w.ctrl.bot with
    | some h =>
      match removeAllListenersE fault w.listeners h.id with
      | Except.ok ls2 => ls2
      | Except.error _ => w.listeners
    | none => w.listeners
  Except.ok { ctrl := { w.ctrl with connected := false, bot := none },
              listeners := ls }

/-- commands.join argument shaping: the first truthy token is the host;
a truthy second token is the version when it contains a dot, otherwise
parseInt of it is the port; a truthy third token always overrides the
version. none means the usage warning was logged instead. -/
def argTruthy (args : List String) (i : Nat) : Option String :=
  match args[i]? with
  | some a => if a = "" then none else some a
  | none => none

def joinParse (args : List String) :
    Option (String × JSNum × Option String) :=
  match argTruthy args 0 with
  | none => none
  | some ip =>
    let pv : JSNum × Option String :=
      match argTruthy args 1 with
      | some a1 =>
        if a1.toList.contains '.' then (JSNum.int 25565, some a1)
        else (jsParseInt a1, none)
      | none => (JSNum.int 25565, none)
    let ver : Option String :=
      match argTruthy args 2 with
      | some a2 => some a2
      | none => pv.2
    some (ip, pv.1, ver)

/-- The join command: parse the tokens, then call connect (its
synchronous prefix) with the result. The Bool reports whether a connect
attempt was actually started. -/
def joinCmd (s : ControllerState) (args : List String) (newBot : Handle) :
    ControllerState × List LogEntry × Bool :=
  match joinParse args with
  | none => (s, [⟨LogLevel.warn, "Usage: join <ip> [port|version] [version]"⟩], false)
  | some (ip, port, ver) => connectStart s ip port ver newBot

/-- commands.autoreconnect: a falsy first token logs the usage line,
otherwise the flag becomes the comparison of the lowered token with
the word true. -/
def autoreconnectCmd (s : ControllerState) (args : List String) :
    ControllerState × List LogEntry :=
  match args[0]? with
  | none => (s, [⟨LogLevel.warn, "Usage: autoreconnect true|false"⟩])
  | some a0 =>
    if a0 = "" then (s, [⟨LogLevel.warn, "Usage: autoreconnect true|false"⟩])
    else setAutoReconnect s (decide (lowerString a0 = "true"))

/-- The closed set of command names the registry maps. -/
inductive CmdName
  | join
  | leave
  | exitCmd
  | clearCmd
  | say
  | query
  | lookat
  | gotoCmd
  | autoreconnect
  | help
deriving DecidableEq, Repr

/-- The name to handler lookup of the command registry, on the lowered
first token. -/
def lookupCommand (s : String) : Option CmdName :=
  if s = "join" then some CmdName.join
  else if s = "leave" then some CmdName.leave
  else if s = "exit" then some CmdName.exitCmd
  else if s = "clear" then some CmdName.clearCmd
  else if s = "say" then some CmdName.say
  else if s = "query" then some CmdName.query
  else if s = "lookat" then some CmdName.lookat
  else if s = "goto" then some CmdName.gotoCmd
  else if s = "autoreconnect" then some CmdName.autoreconnect
  else if s = "help" then some CmdName.help
  else none

/-- Awaiting a handler under the try/catch of handleCommand: a fault is
converted into one command-failure log entry. -/
def runHandler (handlers : CmdName → List String → Except String (List LogEntry))
    (c : CmdName) (args : List String) : List LogEntry :=
  match handlers c args with
  | Except.ok l => l
  | Except.error e => [⟨LogLevel.error, "Command failed: " ++ e⟩]

/-- handleCommand: trim the line, split it on single spaces, ignore a
falsy first token, look the lowered token up, warn on an unknown name,
and otherwise run the handler under the dispatch-boundary try/catch.
The Except return mirrors the possibility of a raise escaping to the
input loop; the handler parameter abstracts the registry bodies. -/
def dispatchE (handlers : CmdName → List String → Except String (List LogEntry))
    (input : String) : Except String (List LogEntry) :=
  match jsSplit (jsTrim input) with
  | [] => Except.ok []
  | cmd :: args =>
    if cmd = "" then Except.ok []
    else
      match lookupCommand (lowerString cmd) with
      | none => Except.ok [⟨LogLevel.warn, "Unknown command: " ++ cmd⟩]
      | some c => Except.ok (runHandler handlers c args)

/-- A controller that is mid-attempt: Connecting in the derived state. -/
def stConnecting : ControllerState :=
  { bot := some ⟨7⟩, connected := false, autoReconnect := false,
    lastHost := some "old.example", lastPort := some (JSNum.int 25565),
    lastVersion := none }

/-- A controller that completed a connect: Connected in the derived
state, with auto-reconnect enabled and a remembered target. -/
def stConnected : ControllerState :=
  { bot := some ⟨3⟩, connected := true, autoReconnect := true,
    lastHost := some "play.example.org", lastPort := some (JSNum.int 25565),
    lastVersion := some "1.20.1" }

/-- A world holding a live handle with listeners attached. -/
def wldExample : World :=
  { ctrl := { stConnected with bot := some ⟨5⟩ }, listeners := [5, 9] }

/-- The world wldExample reaches after one cleanup whose detach call
faulted: handle released, flag cleared, listeners left behind. -/
def wldExampleAfter : World :=
  { ctrl := { stConnected with bot := none, connected := false },
    listeners := [5, 9] }

/-- Once the listeners are detached, an event changes nothing. -/
theorem stepEvent_detached (u : String) (st : AttemptState) (ev : BotEvent)
    (h : st.attached = false) : stepEvent u st ev = st := by
  simp [stepEvent, h]

/-- Once the listeners are detached, a whole trace changes nothing. -/
theorem foldl_stepEvent_detached (u : String) (tr : List BotEvent)
    (st : AttemptState) (h : st.attached = false) :
    List.foldl (stepEvent u) st tr = st := by
  induction tr with
  | nil => rfl
  | cons e es ih => rw [List.foldl_cons, stepEvent_detached u st e h]; exact ih

/-- A resolved promise stays resolved under any further event. -/
theorem stepEvent_resolved (u : String) (st : AttemptState) (ev : BotEvent)
    (h : st.resolved = true) : (stepEvent u st ev).resolved = true := by
  cases hA : st.attached with
  | false => simp [stepEvent, hA, h]
  | true =>
    cases ev <;>
      simp [stepEvent, hA, attemptCleanup, attemptReconnect, h] <;>
      split_ifs <;> simp [h]

/-- A resolved promise stays resolved under any further trace. -/
theorem foldl_stepEvent_resolved (u : String) (tr : List BotEvent) :
    ∀ st : AttemptState, st.resolved = true →
    (List.foldl (stepEvent u) st tr).resolved = true := by
  induction tr with
  | nil => intro st h; exact h
  | cons e es ih =>
    intro st h
    rw [List.foldl_cons]
    exact ih _ (stepEvent_resolved u st e h)

/-- From a freshly attached, unresolved attempt state still holding its
handle, delivering a trace resolves the promise exactly when the first
lifecycle event of the trace is a spawn or an error. -/
theorem foldl_stepEvent_resolves (u : String) (tr : List BotEvent) :
    ∀ st : AttemptState,
    st.attached = true → st.resolved = false → st.spawnUsed = false →
    st.ctrl.bot.isSome = true →
    (List.foldl (stepEvent u) st tr).resolved = attemptResolves tr := by
  induction tr with
  | nil => intro st _ h2 _ _; simpa [attemptResolves] using h2
  | cons e es ih =>
    intro st h1 h2 h3 h4
    rw [List.foldl_cons]
    cases e with
    | spawn pos =>
      have hres : (stepEvent u st (BotEvent.spawn pos)).resolved = true := by
        simp [stepEvent, h1, h3]
      rw [foldl_stepEvent_resolved u es _ hres]
      rfl
    | chat user msg =>
      have hR : attemptResolves (BotEvent.chat user msg :: es) = attemptResolves es := rfl
      rw [hR]
      refine ih _ ?_ ?_ ?_ ?_ <;>
        simp [stepEvent, h1] <;> split_ifs <;> simp [h1, h2, h3, h4]
    | message msg =>
      have hR : attemptResolves (BotEvent.message msg :: es) = attemptResolves es := rfl
      rw [hR]
      refine ih _ ?_ ?_ ?_ ?_ <;> simp [stepEvent, h1, h2, h3, h4]
    | kicked reason =>
      have hdet : (stepEvent u st (BotEvent.kicked reason)).attached = false := by
        simp [stepEvent, h1, attemptReconnect, attemptCleanup, h4]
      have hres : (stepEvent u st (BotEvent.kicked reason)).resolved = false := by
        simp [stepEvent, h1, attemptReconnect, attemptCleanup, h2]
      rw [foldl_stepEvent_detached u es _ hdet, hres]
      rfl
    | errorEv m =>
      have hres : (stepEvent u st (BotEvent.errorEv m)).resolved = true := by
        simp [stepEvent, h1, attemptCleanup]
      rw [foldl_stepEvent_resolved u es _ hres]
      rfl
    | endEv =>
      obtain ⟨b, hb⟩ := Option.isSome_iff_exists.mp h4
      have hdet : (stepEvent u st BotEvent.endEv).attached = false := by
        by_cases hcon : st.ctrl.connected = true <;>
          simp [stepEvent, h1, hcon, attemptReconnect, attemptCleanup, hb]
      have hres : (stepEvent u st BotEvent.endEv).resolved = false := by
        by_cases hcon : st.ctrl.connected = true <;>
          simp [stepEvent, h1, hcon, attemptReconnect, attemptCleanup, h2]
      rw [foldl_stepEvent_detached u es _ hdet, hres]
      rfl

/-- C2, amended: a connect attempt from the disconnected initial state
never rejects, and it resolves exactly when the first lifecycle event
delivered to it is a spawn or an error; the code has no timeout, so a
trace without such an event — none at all, or a kicked or end first,
which detaches every listener — leaves the call pending forever. -/
theorem connect_resolves_iff_spawn_or_error
    (host : String) (port : JSNum) (version : Option String)
    (username : String) (newBot : Handle) (trace : List BotEvent)
    (h : host ≠ "") :
    (connectAttempt initialState host port version username newBot trace).resolved
      = attemptResolves trace := by
  have hstart : connectStart initialState host port version newBot
      = ({ bot := some newBot, connected := false, autoReconnect := false,
           lastHost := some host, lastPort := some port, lastVersion := version },
         [⟨LogLevel.info, "🔌 Connecting to " ++ host ++ ":" ++ jsNumStr port ++ " " ++
            (match version with | some v => "(v" ++ v ++ ")" | none => "")⟩],
         true) := by
    unfold connectStart
    rw [if_neg (by decide : ¬ (initialState.connected = true)), if_neg h]
    rfl
  unfold connectAttempt
  rw [hstart]
  refine foldl_stepEvent_resolves username trace _ ?_ ?_ ?_ ?_ <;> rfl

theorem connect_resolves_iff_spawn_or_error_witness :
    (connectAttempt initialState "play.example.org" (JSNum.int 25565) none
        "steve" ⟨0⟩ [BotEvent.errorEv "ECONNREFUSED"]).resolved
      = attemptResolves [BotEvent.errorEv "ECONNREFUSED"] :=
  connect_resolves_iff_spawn_or_error "play.example.org" (JSNum.int 25565) none
    "steve" ⟨0⟩ [BotEvent.errorEv "ECONNREFUSED"] (by decide)

/-- C2 counterexample: an attempt that never receives a spawn or error
event never resolves — with no events at all, and even when the
transport ends — so no timeout bounds the attempt, contrary to the
claim that a terminal-outcome-free attempt still resolves as failed. -/
theorem connect_unbounded_no_timeout_cex :
    (connectAttempt initialState "play.example.org" (JSNum.int 25565) none
        "steve" ⟨0⟩ []).resolved = false
    ∧ (connectAttempt initialState "play.example.org" (JSNum.int 25565) none
        "steve" ⟨0⟩ [BotEvent.endEv]).resolved = false := by decide

/-- C1, amended: calling connect while the connected flag is set (the
Connected state) leaves the whole controller state, including lastHost,
lastPort, lastVersion and the owned handle, untouched, fails the guard,
and logs exactly one error. While Connecting the guard does not fire,
as the counterexample shows. -/
theorem connect_fails_fast_only_when_connected
    (s : ControllerState) (host : String) (port : JSNum)
    (version : Option String) (newBot : Handle) (h : s.connected = true) :
    connectStart s host port version newBot
      = (s, [⟨LogLevel.error, "Bot already connected."⟩], false) := by
  simp [connectStart, h]

theorem connect_fails_fast_only_when_connected_witness :
    connectStart stConnected "other.example" (JSNum.int 25565) none ⟨9⟩
      = (stConnected, [⟨LogLevel.error, "Bot already connected."⟩], false) :=
  connect_fails_fast_only_when_connected stConnected "other.example"
    (JSNum.int 25565) none ⟨9⟩ rfl

/-- C1 counterexample: in the Connecting state, which is not
Disconnected, connect proceeds anyway: it overwrites lastHost and the
owned handle and logs no error at all, because the guard only tests the
connected flag. -/
theorem connect_while_connecting_proceeds_cex :
    stateOf stConnecting ≠ ConnState.Disconnected
    ∧ (connectStart stConnecting "new.example" (JSNum.int 25566) none ⟨8⟩).1.lastHost
        ≠ stConnecting.lastHost
    ∧ (connectStart stConnecting "new.example" (JSNum.int 25566) none ⟨8⟩).1.bot
        ≠ stConnecting.bot
    ∧ ((connectStart stConnecting "new.example" (JSNum.int 25566) none ⟨8⟩).2.1.all
        (fun e => decide (e.level ≠ LogLevel.error))) = true
    ∧ (connectStart stConnecting "new.example" (JSNum.int 25566) none ⟨8⟩).2.2
        = true := by decide

/-- C3, amended: each process-wide guard handler logs exactly one error
carrying its origin tag and the process stays alive, but no recovery is
attempted: the controller state is left untouched, so no cleanup runs
and no reconnect is scheduled, whether or not the controller is
connected, and no nothing-to-recover line is logged either. -/
theorem fault_guard_logs_only
    (origin : FaultOrigin) (m : String) (s : ControllerState) :
    (faultGuard origin m s).1 = s
    ∧ (faultGuard origin m s).2.1 = [⟨LogLevel.error, originMsg origin ++ m⟩]
    ∧ (faultGuard origin m s).2.2.1 = []
    ∧ (faultGuard origin m s).2.2.2 = true :=
  ⟨rfl, rfl, rfl, rfl⟩

/-- C3 counterexample: with the controller connected, the handle owned,
the auto-reconnect flag on and a remembered target, an uncaught
exception reaching the guard leaves the state untouched — the handle is
not released, so cleanup was not attempted — and schedules no reconnect;
and in the disconnected case the only log is the fault line itself, with
no nothing-to-recover message. -/
theorem fault_guard_no_recovery_cex :
    stConnected.connected = true
    ∧ stConnected.autoReconnect = true
    ∧ truthyOpt stConnected.lastHost = true
    ∧ (faultGuard FaultOrigin.uncaughtException "boom" stConnected).1 = stConnected
    ∧ (faultGuard FaultOrigin.uncaughtException "boom" stConnected).1.bot ≠ none
    ∧ (faultGuard FaultOrigin.uncaughtException "boom" stConnected).2.2.1 = []
    ∧ (faultGuard FaultOrigin.unhandledRejection "x" initialState).2.1
        = [⟨LogLevel.error, "Unhandled rejection: x"⟩] := by decide

/-- C4: after setAutoReconnect true and a successful connect, an end
event schedules exactly one reconnect with the original host, port and
version after the fixed 3000 millisecond delay; with the flag false the
same scenario schedules nothing. -/
theorem end_event_schedules_reconnect
    (host : String) (port : JSNum) (version : Option String)
    (username pos : String) (newBot : Handle) (h : host ≠ "") :
    (connectAttempt (setAutoReconnect initialState true).1 host port version
        username newBot [BotEvent.spawn pos, BotEvent.endEv]).tasks
      = [{ delayMs := 3000, host := host, port := some port, version := version }]
    ∧ (connectAttempt (setAutoReconnect initialState false).1 host port version
        username newBot [BotEvent.spawn pos, BotEvent.endEv]).tasks = [] := by
  constructor <;>
    simp [connectAttempt, connectStart, setAutoReconnect, initialState, h,
          stepEvent, attemptCleanup, attemptReconnect, tryReconnect, truthyOpt]

theorem end_event_schedules_reconnect_witness :
    (connectAttempt (setAutoReconnect initialState true).1 "mc.example.com"
        (JSNum.int 25565) (some "1.20.1") "steve" ⟨0⟩
        [BotEvent.spawn "1.0, 64.0, 2.0", BotEvent.endEv]).tasks
      = [{ delayMs := 3000, host := "mc.example.com",
           port := some (JSNum.int 25565), version := some "1.20.1" }]
    ∧ (connectAttempt (setAutoReconnect initialState false).1 "mc.example.com"
        (JSNum.int 25565) (some "1.20.1") "steve" ⟨0⟩
        [BotEvent.spawn "1.0, 64.0, 2.0", BotEvent.endEv]).tasks = [] :=
  end_event_schedules_reconnect "mc.example.com" (JSNum.int 25565)
    (some "1.20.1") "steve" "1.0, 64.0, 2.0" ⟨0⟩ (by decide)

/-- C5: with the controller connected and holding a handle, say with a
non-empty message hands the transport exactly the first 256 units of the
message, a value of length at most 256; when not connected, or when the
message is empty, it logs one warning and transmits nothing. -/
theorem say_truncates_and_guards
    (s : ControllerState) (msg : String) (chatFault : Option String) :
    (s.connected = true → s.bot ≠ none → msg ≠ "" →
      (sayOp s msg chatFault).2.2 = some (String.mk (msg.toList.take 256))
      ∧ (String.mk (msg.toList.take 256)).length ≤ 256)
    ∧ (s.connected = false ∨ s.bot = none →
      sayOp s msg chatFault = (s, [⟨LogLevel.warn, "Bot not connected."⟩], none))
    ∧ (s.connected = true → s.bot ≠ none → msg = "" →
      sayOp s msg chatFault = (s, [⟨LogLevel.warn, "Usage: say <message>"⟩], none)) := by
  refine ⟨?_, ?_, ?_⟩
  · intro h1 h2 h3
    constructor
    · cases chatFault <;> simp [sayOp, h1, h2, h3]
    · show (msg.toList.take 256).length ≤ 256
      exact List.length_take_le 256 msg.toList
  · intro hcase
    rcases hcase with hc | hb
    · simp [sayOp, hc]
    · simp [sayOp, hb]
  · intro h1 h2 h3
    simp [sayOp, h1, h2, h3]

theorem say_truncates_and_guards_witness :
    (sayOp stConnected "hello world" none).2.2
        = some (String.mk ("hello world".toList.take 256))
    ∧ (String.mk ("hello world".toList.take 256)).length ≤ 256 :=
  (say_truncates_and_guards stConnected "hello world" none).1 rfl
    (by decide) (by decide)

/-- C6: join token shaping — a truthy second token containing a dot is
taken as the version and the port stays at the default 25565; one
without a dot goes through parseInt and is taken as the port; a truthy
third token always overrides the version. Instantiating this yields
both examples of the claim. -/
theorem join_token_disambiguation
    (ip a1 a2 : String) (hip : ip ≠ "") (h1 : a1 ≠ "") :
    (a1.toList.contains '.' = true →
       joinParse [ip, a1] = some (ip, JSNum.int 25565, some a1))
    ∧ (a1.toList.contains '.' = false →
       joinParse [ip, a1] = some (ip, jsParseInt a1, none))
    ∧ (a1.toList.contains '.' = false → a2 ≠ "" →
       joinParse [ip, a1, a2] = some (ip, jsParseInt a1, some a2))
    ∧ (a1.toList.contains '.' = true → a2 ≠ "" →
       joinParse [ip, a1, a2] = some (ip, JSNum.int 25565, some a2)) := by
  refine ⟨?_, ?_, ?_, ?_⟩
  · intro hd
    have hd2 : '.' ∈ a1.data := by simpa using hd
    simp [joinParse, argTruthy, hip, h1, hd2]
  · intro hd
    have hd2 : '.' ∉ a1.data := by simpa using hd
    simp [joinParse, argTruthy, hip, h1, hd2]
  · intro hd h2
    have hd2 : '.' ∉ a1.data := by simpa using hd
    simp [joinParse, argTruthy, hip, h1, hd2, h2]
  · intro hd h2
    have hd2 : '.' ∈ a1.data := by simpa using hd
    simp [joinParse, argTruthy, hip, h1, hd2, h2]

theorem join_token_disambiguation_witness :
    joinParse ["host", "1.20.1"] = some ("host", JSNum.int 25565, some "1.20.1")
    ∧ joinParse ["host", "25566", "1.20.1"]
        = some ("host", JSNum.int 25566, some "1.20.1") := by
  constructor
  · exact (join_token_disambiguation "host" "1.20.1" "x" (by decide) (by decide)).1
      (by decide)
  · have h := (join_token_disambiguation "host" "25566" "1.20.1" (by decide)
      (by decide)).2.2.1 (by decide) (by decide)
    have hp : jsParseInt "25566" = JSNum.int 25566 := by decide
    rw [hp] at h
    exact h

/-- C7: cleanup is idempotent and total — it always returns normally
even when detaching the listeners faults, a second cleanup returns the
very same world, the result is Disconnected with no handle, and when
the detach call succeeds the released handle keeps no listeners. -/
theorem cleanup_idempotent_no_throw (f g : Bool) (w w2 : World) :
    exOk (cleanupWE f w) = true
    ∧ (cleanupWE f w = Except.ok w2 →
        cleanupWE g w2 = Except.ok w2
        ∧ w2.ctrl.connected = false ∧ w2.ctrl.bot = none
        ∧ (f = false → ∀ hb : Handle, w.ctrl.bot = some hb →
            w2.listeners = w.listeners.filter (fun i => i ≠ hb.id))) := by
  constructor
  · rfl
  · intro hok
    have hw2 := (Except.ok.injEq _ _).mp hok.symm
    subst hw2
    refine ⟨?_, rfl, rfl, ?_⟩
    · rfl
    · intro hf hb hbEq
      simp [cleanupWE, removeAllListenersE, hbEq, hf]

theorem cleanup_idempotent_no_throw_witness :
    exOk (cleanupWE true wldExample) = true
    ∧ cleanupWE false wldExampleAfter = Except.ok wldExampleAfter
    ∧ wldExampleAfter.ctrl.connected = false
    ∧ wldExampleAfter.ctrl.bot = none :=
  have h := cleanup_idempotent_no_throw true false wldExample wldExampleAfter
  have h2 := h.2 (by rfl)
  ⟨h.1, h2.1, h2.2.1, h2.2.2.1⟩

/-- C8, amended: the dispatcher never raises past its boundary — the
input loop always gets a normal return — an input that trims to the
empty string is silently ignored with no log and no dispatch, the first
token lower-cased selects the handler, and an unknown command name
produces exactly one warning. Tokenization, however, splits on single
space characters after trimming, not on whitespace runs: a run of
spaces yields empty argument tokens, as the counterexample shows. -/
theorem dispatch_tokenization_and_unknown
    (handlers : CmdName → List String → Except String (List LogEntry))
    (input : String) :
    exOk (dispatchE handlers input) = true
    ∧ (jsTrim input = "" → dispatchE handlers input = Except.ok [])
    ∧ (∀ cmd args, jsSplit (jsTrim input) = cmd :: args → cmd ≠ "" →
        lookupCommand (lowerString cmd) = none →
        dispatchE handlers input
          = Except.ok [⟨LogLevel.warn, "Unknown command: " ++ cmd⟩])
    ∧ (∀ cmd args c, jsSplit (jsTrim input) = cmd :: args → cmd ≠ "" →
        lookupCommand (lowerString cmd) = some c →
        dispatchE handlers input = Except.ok (runHandler handlers c args)) := by
  refine ⟨?_, ?_, ?_, ?_⟩
  · unfold dispatchE
    cases hs : jsSplit (jsTrim input) with
    | nil => rfl
    | cons cmd args =>
      by_cases hc : cmd = ""
      · simp [hc, exOk]
      · simp only [hc, if_neg hc]
        cases lookupCommand (lowerString cmd) <;> rfl
  · intro ht
    unfold dispatchE
    rw [ht]
    rfl
  · intro cmd args hs hc hl
    unfold dispatchE
    rw [hs]
    simp [hc, hl]
  · intro cmd args c hs hc hl
    unfold dispatchE
    rw [hs]
    simp [hc, hl]

theorem dispatch_tokenization_and_unknown_witness :
    dispatchE (fun _ _ => Except.ok []) "frobnicate now"
      = Except.ok [⟨LogLevel.warn, "Unknown command: frobnicate"⟩] :=
  (dispatch_tokenization_and_unknown (fun _ _ => Except.ok []) "frobnicate now").2.2.1
    "frobnicate" ["now"] (by decide) (by decide) (by decide)

/-- C8 counterexample: the line with two spaces between the command and
its argument tokenizes in the code to a list with an empty middle token,
while splitting on whitespace runs, as the claim words it, gives two
tokens; the two disagree. -/
theorem tokenize_single_space_cex :
    jsSplit (jsTrim "say  hi") = ["say", "", "hi"]
    ∧ wsTokenize "say  hi" = ["say", "hi"]
    ∧ jsSplit (jsTrim "say  hi") ≠ wsTokenize "say  hi" := by decide

/-- C9, amended: with a truthy first token, autoreconnect sets the flag
exactly to whether the lowered token equals the word true — anything
else, including yes or 1 or on, silently disables — and the usage
warning appears exactly when the first token is missing or is the empty
string. -/
theorem autoreconnect_flag_semantics
    (s : ControllerState) (args : List String) (a0 : String) :
    (args[0]? = some a0 → a0 ≠ "" →
      autoreconnectCmd s args
        = ({ s with autoReconnect := decide (lowerString a0 = "true") },
           [⟨LogLevel.info, "🔁 Auto-reconnect is now " ++
              (if decide (lowerString a0 = "true") then "ENABLED" else "DISABLED")⟩])
      ∧ ((autoreconnectCmd s args).1.autoReconnect = true ↔ lowerString a0 = "true"))
    ∧ ((args[0]? = none ∨ args[0]? = some "") →
      autoreconnectCmd s args
        = (s, [⟨LogLevel.warn, "Usage: autoreconnect true|false"⟩])) := by
  constructor
  · intro hA h0
    have hEq : autoreconnectCmd s args
        = ({ s with autoReconnect := decide (lowerString a0 = "true") },
           [⟨LogLevel.info, "🔁 Auto-reconnect is now " ++
              (if decide (lowerString a0 = "true") then "ENABLED" else "DISABLED")⟩]) := by
      unfold autoreconnectCmd
      rw [hA]
      simp [h0, setAutoReconnect]
    refine ⟨hEq, ?_⟩
    rw [hEq]
    simp
  · intro hA
    rcases hA with hA | hA
    · unfold autoreconnectCmd
      rw [hA]
    · unfold autoreconnectCmd
      rw [hA]
      simp

theorem autoreconnect_flag_semantics_witness :
    (autoreconnectCmd initialState ["yes"]).1.autoReconnect = false
    ∧ (autoreconnectCmd initialState ["TRUE"]).1.autoReconnect = true := by
  have h1 := (autoreconnect_flag_semantics initialState ["yes"] "yes").1
    rfl (by decide)
  have h2 := (autoreconnect_flag_semantics initialState ["TRUE"] "TRUE").1
    rfl (by decide)
  constructor
  · rw [h1.1]; decide
  · rw [h2.1]; decide

/-- C9 counterexample: an args list whose first entry is the empty
string — exactly what the tokenizer produces for the line with a double
space after the command word — is not a missing argument, yet it
triggers the usage warning and leaves the flag untouched. -/
theorem autoreconnect_empty_arg_warns_cex :
    autoreconnectCmd initialState ["", "true"]
        = (initialState, [⟨LogLevel.warn, "Usage: autoreconnect true|false"⟩])
    ∧ (["", "true"] : List String) ≠ []
    ∧ jsSplit (jsTrim "autoreconnect  true") = ["autoreconnect", "", "true"] := by
  decide

/-- C10, amended: when the truthy second token of join has no dot and
parseInt finds no digits in it, the parse yields NaN and connect is
still invoked: the attempt proceeds past the guards, records
lastPort = NaN, and logs the connecting info line rather than rejecting
the input as a usage error. -/
theorem join_nan_port_flows_to_connect
    (s : ControllerState) (ip a1 : String) (newBot : Handle)
    (hc : s.connected = false) (hip : ip ≠ "") (h1 : a1 ≠ "")
    (hd : a1.toList.contains '.' = false) (hn : jsParseInt a1 = JSNum.nan) :
    joinParse [ip, a1] = some (ip, JSNum.nan, none)
    ∧ (joinCmd s [ip, a1] newBot).2.2 = true
    ∧ (joinCmd s [ip, a1] newBot).1.lastPort = some JSNum.nan
    ∧ (joinCmd s [ip, a1] newBot).2.1.all
        (fun e => decide (e.level = LogLevel.info)) = true := by
  have hjp : joinParse [ip, a1] = some (ip, JSNum.nan, none) := by
    have hd2 : '.' ∉ a1.data := by simpa using hd
    simp [joinParse, argTruthy, hip, h1, hd2, hn]
  refine ⟨hjp, ?_, ?_, ?_⟩ <;>
    simp [joinCmd, hjp, connectStart, hc, hip]

theorem join_nan_port_flows_to_connect_witness :
    joinParse ["play.example.org", "abc"]
        = some ("play.example.org", JSNum.nan, none)
    ∧ (joinCmd initialState ["play.example.org", "abc"] ⟨0⟩).2.2 = true
    ∧ (joinCmd initialState ["play.example.org", "abc"] ⟨0⟩).1.lastPort
        = some JSNum.nan
    ∧ (joinCmd initialState ["play.example.org", "abc"] ⟨0⟩).2.1.all
        (fun e => decide (e.level = LogLevel.info)) = true :=
  join_nan_port_flows_to_connect initialState "play.example.org" "abc" ⟨0⟩
    rfl (by decide) (by decide) (by decide) (by decide)

/-- C10 counterexample: the token -5 contains no dot and does not start
with a digit, yet parseInt reads it as the integer -5, not NaN, and
join passes port -5 to connect — so the claim that every dotless token
not starting with a digit parses to NaN is false. -/
theorem join_nonnumeric_token_not_always_nan_cex :
    ("-5".toList.contains '.') = false
    ∧ "-5".toList.head? = some '-'
    ∧ ('-').isDigit = false
    ∧ jsParseInt "-5" = JSNum.int (-5)
    ∧ jsParseInt "-5" ≠ JSNum.nan
    ∧ joinParse ["host", "-5"] = some ("host", JSNum.int (-5), none) := by decide

end MCCLI
